import Mathlib

/-!
Verification of the SignaPay transaction ingestion and classification engine.

The repository sources that survive are the frontend (React components:
AuthContext, Login, Dashboard, PrivateRoute, App) and the two README files.
The backend engine itself (Row Parser, Validator, Classifier/Aggregator,
Result Store, Query Service) is absent from the sources, so it is modelled
here from the specification, faithful to its words; where the specification
leaves a choice open, the surviving frontend callers fix it (for example the
response keys read by fetchChartOfAccounts).  Amounts are exact fixed-point
integers in hundredths, the decimal arithmetic the specification mandates.
-/

namespace SignaPay

/-- Modelled from the spec: a parsed Transaction candidate produced by the
missing Row Parser — account name, card number, signed decimal amount
(exact fixed-point decimal), transaction type, description and optional
target card (absent encoded as the empty string). -/
structure Transaction where
  account_name : String
  card_number : String
  transaction_amount : Int
  transaction_type : String
  description : String
  target_card_number : String
deriving DecidableEq

/-- Modelled from the spec: a BadTransaction — the row's raw fields plus the
reason it failed parsing or validation, as the missing engine stores it. -/
structure BadTransaction where
  account_name : String
  card_number : String
  transaction_amount : String
  transaction_type : String
  description : String
  target_card_number : String
  reason : String
deriving DecidableEq

/-- Modelled from the spec: a ChartOfAccountsEntry — one entry per unique
(account_name, card_number) pair with the exact signed total. -/
structure Entry where
  account_name : String
  card_number : String
  total_amount : Int
deriving DecidableEq

/-- Modelled from the spec: the Validator's verdict on a candidate:
Valid, or Bad with a reason. -/
inductive Verdict where
  | valid : Verdict
  | bad : String → Verdict
deriving DecidableEq

/-- Modelled from the spec: the card-number format check — fixed length,
numeric.  The length 16 is taken from the spec's example card
1111222233334444. -/
def validCardFormat (s : String) : Bool :=
  s.length == 16 && s.data.all Char.isDigit

/-- Modelled from the spec: the recognized transaction-type enum values
(credit, debit, transfer). -/
def recognizedTypes : List String :=
  ["credit", "debit", "transfer"]

/-- Modelled from the spec: the missing Validator.  Pure function of the
candidate; the five rules are applied in the spec's fixed order and the
first failing rule determines the reported reason. -/
def validate (t : Transaction) : Verdict :=
  if t.account_name.isEmpty then Verdict.bad "missing account name"
  else if !(validCardFormat t.card_number) then Verdict.bad "invalid card number format"
  else if t.transaction_amount = 0 then Verdict.bad "zero amount transaction"
  else if t.transaction_type == "transfer" && !(validCardFormat t.target_card_number) then
    Verdict.bad "missing/invalid target card for transfer"
  else if !(recognizedTypes.contains t.transaction_type) then
    Verdict.bad "unrecognized transaction type"
  else Verdict.valid

/-- Numeric value of a run of decimal digit characters. -/
def digitsVal (ds : List Char) : Nat :=
  ds.foldl (fun n c => 10 * n + (c.toNat - 48)) 0

/-- Split a character list at the first dot: integer part and, when a dot
occurs, the remainder after it. -/
def splitFrac : List Char → List Char × Option (List Char)
  | [] => ([], none)
  | c :: cs =>
    if c = '.' then ([], some cs)
    else
      let p := splitFrac cs
      (c :: p.1, p.2)

/-- Modelled from the spec: the signed-decimal parser of the missing Row
Parser.  The decimal domain is exact fixed-point arithmetic in hundredths —
the two-fractional-digit money format of every amount in the spec's
examples; a digit string with sign and at most two fractional digits
becomes its value in hundredths, anything else is an invalid amount. -/
def parseDecimalAux (sign : Int) (cs : List Char) : Option Int :=
  let p := splitFrac cs
  if p.1.isEmpty then none
  else if !(p.1.all Char.isDigit) then none
  else
    match p.2 with
    | none => some (sign * (digitsVal p.1 : Int) * 100)
    | some f =>
      if !(f.all Char.isDigit) then none
      else if 2 < f.length then none
      else some (sign * ((digitsVal p.1 : Int) * 100 +
        (digitsVal f : Int) * (10 ^ (2 - f.length) : Nat)))

/-- Parse a signed decimal string to its exact value in hundredths. -/
def parseDecimal (s : String) : Option Int :=
  match s.data with
  | '-' :: rest => parseDecimalAux (-1) rest
  | cs => parseDecimalAux 1 cs

/-- Modelled from the spec: the column positions the missing Row Parser
resolves once per upload from the header row.  The five required columns
plus the optional Target Card Number column. -/
structure Cols where
  an : Nat
  cn : Nat
  ta : Nat
  tt : Nat
  de : Nat
  tc : Option Nat
deriving DecidableEq

/-- The characters of a string, lowercased. -/
def lowerChars (s : String) : List Char :=
  s.data.map Char.toLower

/-- Case-insensitive lookup of a column name in the header, per the spec's
header-matching note. -/
def findCol (header : List String) (name : String) : Option Nat :=
  header.findIdx? (fun c => lowerChars c == lowerChars name)

/-- Modelled from the spec: header resolution of the missing Row Parser.
A header missing any required column name yields none — a structural
error for the whole upload. -/
def headerCols (header : List String) : Option Cols :=
  match findCol header "Account Name", findCol header "Card Number",
        findCol header "Transaction Amount", findCol header "Transaction Type",
        findCol header "Description" with
  | some an, some cn, some ta, some tt, some de =>
    some ⟨an, cn, ta, tt, de, findCol header "Target Card Number"⟩
  | _, _, _, _, _ => none

/-- The cell of a row at a column index, or the empty string when the row
has no such cell. -/
def cellOr (row : List String) (i : Nat) : String :=
  (row.get? i).getD ""

/-- Modelled from the spec: build the BadTransaction record for a failed
row — the row's raw fields plus the failure reason. -/
def mkBad (c : Cols) (row : List String) (reason : String) : BadTransaction :=
  ⟨cellOr row c.an, cellOr row c.cn, cellOr row c.ta, cellOr row c.tt,
   cellOr row c.de,
   (match c.tc with
    | some i => cellOr row i
    | none => ""), reason⟩

/-- Modelled from the spec: the missing Row Parser on one CSV record —
either a Transaction candidate, or a BadTransaction carrying a parse
failure reason (missing required field, or invalid amount format). -/
def parseRow (c : Cols) (row : List String) : Sum Transaction BadTransaction :=
  match row.get? c.an with
  | none => Sum.inr (mkBad c row "missing required field: Account Name")
  | some an =>
    match row.get? c.cn with
    | none => Sum.inr (mkBad c row "missing required field: Card Number")
    | some cn =>
      match row.get? c.ta with
      | none => Sum.inr (mkBad c row "missing required field: Transaction Amount")
      | some ta =>
        match row.get? c.tt with
        | none => Sum.inr (mkBad c row "missing required field: Transaction Type")
        | some tt =>
          match row.get? c.de with
          | none => Sum.inr (mkBad c row "missing required field: Description")
          | some de =>
            match parseDecimal ta with
            | none => Sum.inr (mkBad c row "invalid amount format")
            | some amt =>
              Sum.inl ⟨an, cn, amt, tt, de,
                (match c.tc with
                 | some i => cellOr row i
                 | none => "")⟩

/-- Modelled from the spec: one row through Row Parser then Validator — a
Valid Transaction, or a BadTransaction with the first failing reason. -/
def rowOutcome (c : Cols) (row : List String) : Sum Transaction BadTransaction :=
  match parseRow c row with
  | Sum.inr b => Sum.inr b
  | Sum.inl t =>
    match validate t with
    | Verdict.valid => Sum.inl t
    | Verdict.bad reason => Sum.inr (mkBad c row reason)

/-- Modelled from the spec: process every data row in CSV order, splitting
the stream into the Valid Transactions and the BadTransactions, both in
input order; a failing row never aborts the stream. -/
def processRows (c : Cols) : List (List String) → List Transaction × List BadTransaction
  | [] => ([], [])
  | r :: rs =>
    let rest := processRows c rs
    match rowOutcome c r with
    | Sum.inl t => (t :: rest.1, rest.2)
    | Sum.inr b => (rest.1, b :: rest.2)

/-- Modelled from the spec: fold one Valid Transaction into the
Chart-of-Accounts entry list — stable grouping by
(account_name, card_number) with entries ordered by first appearance,
exact signed sum. -/
def addTx (acc : List Entry) (t : Transaction) : List Entry :=
  match acc with
  | [] => [⟨t.account_name, t.card_number, t.transaction_amount⟩]
  | e :: rest =>
    if e.account_name == t.account_name && e.card_number == t.card_number then
      ⟨e.account_name, e.card_number, e.total_amount + t.transaction_amount⟩ :: rest
    else
      e :: addTx rest t

/-- Modelled from the spec: the missing Classifier/Aggregator's
Chart-of-Accounts view over the ordered Valid Transactions. -/
def buildChart (ts : List Transaction) : List Entry :=
  ts.foldl addTx []

/-- Modelled from the spec: one generation of the Result Store — the three
result sets produced by a single upload. -/
structure Generation where
  chart : List Entry
  collections : List Entry
  bad : List BadTransaction
deriving DecidableEq

instance {ε α : Type} [DecidableEq ε] [DecidableEq α] : DecidableEq (Except ε α) :=
  fun a b =>
    match a, b with
    | Except.ok x, Except.ok y =>
      if h : x = y then isTrue (by rw [h]) else isFalse (fun hh => h (Except.ok.inj hh))
    | Except.error x, Except.error y =>
      if h : x = y then isTrue (by rw [h]) else isFalse (fun hh => h (Except.error.inj hh))
    | Except.ok _, Except.error _ => isFalse (fun hh => Except.noConfusion hh)
    | Except.error _, Except.ok _ => isFalse (fun hh => Except.noConfusion hh)

/-- Modelled from the spec: the empty generation. -/
def emptyGeneration : Generation := ⟨[], [], []⟩

/-- Modelled from the spec: Result Store reset — clears all three sets to
empty, regardless of the prior generation. -/
def reset (_ : Generation) : Generation := emptyGeneration

/-- Modelled from the spec: build the full new generation off to the side —
Chart-of-Accounts by stable grouping, Collections-Accounts as the subset
satisfying the supplied collections predicate, bad rows in the bad set. -/
def buildGeneration (pred : Entry → Bool) (c : Cols) (rows : List (List String)) :
    Generation :=
  let p := processRows c rows
  let chart := buildChart p.1
  ⟨chart, chart.filter pred, p.2⟩

/-- Modelled from the spec: the missing upload pipeline on the raw CSV
records.  An empty file or a header missing a required column is a
structural error rejecting the whole upload; otherwise the three sets are
built in full. -/
def processCsv (pred : Entry → Bool) (records : List (List String)) :
    Except String Generation :=
  match records with
  | [] => Except.error "empty file"
  | header :: rows =>
    match headerCols header with
    | none => Except.error "missing required column in header"
    | some c => Except.ok (buildGeneration pred c rows)

/-- Modelled from the spec: an upload against the Result Store.  A completed
upload atomically replaces the whole generation; a structural failure leaves
the prior generation untouched and surfaces the descriptive error. -/
def applyUpload (pred : Entry → Bool) (store : Generation)
    (records : List (List String)) : Generation × Option String :=
  match processCsv pred records with
  | Except.ok g => (g, none)
  | Except.error e => (store, some e)

/-- First-position containment of one character list in another. -/
def startsW : List Char → List Char → Bool
  | [], _ => true
  | _ :: _, [] => false
  | a :: as, b :: bs => a == b && startsW as bs

/-- Containment of one character list anywhere in another. -/
def occursIn (t : List Char) : List Char → Bool
  | [] => t.isEmpty
  | c :: cs => startsW t (c :: cs) || occursIn t cs

/-- Case-insensitive substring test on strings, as the Query Service's
search uses it. -/
def strContainsCI (s t : String) : Bool :=
  occursIn (lowerChars t) (lowerChars s)

/-- Modelled from the spec: the search keys of a chart/collections entry —
account name and card number. -/
def entryKeys (e : Entry) : List String :=
  [e.account_name, e.card_number]

/-- Modelled from the spec: the search keys of a bad transaction — account
name and card number, per the search box of the Dashboard. -/
def badKeys (b : BadTransaction) : List String :=
  [b.account_name, b.card_number]

/-- Whether any search key contains the term case-insensitively. -/
def matchesTerm (keys : List String) (term : String) : Bool :=
  keys.any (fun k => strContainsCI k term)

/-- Modelled from the spec: the Query Service's search filter — an empty
term keeps everything, a non-empty term keeps exactly the entries one of
whose keys contains it as a case-insensitive substring. -/
def filterSet (keys : α → List String) (term : String) (l : List α) : List α :=
  if term.isEmpty then l else l.filter (fun a => matchesTerm (keys a) term)

/-- Modelled from the spec: items-per-page sanitisation — a positive
integer is required, a sane default (the Dashboard's 20) replaces an
invalid one; the maximum cap is external configuration, left as identity
here. -/
def sanitizePer (per : Nat) : Nat :=
  if per < 1 then 20 else per

/-- Modelled from the spec: totalPages = ceiling of count / per, minimum
one page. -/
def totalPages (count per : Nat) : Nat :=
  max 1 ((count + per - 1) / per)

/-- Modelled from the spec: clamp a 1-indexed page number into the valid
range instead of erroring. -/
def clampPage (page tp : Nat) : Nat :=
  if page < 1 then 1 else if page > tp then tp else page

/-- Modelled from the spec: the slice of a list shown on a 1-indexed
page. -/
def paginate (l : List α) (page per : Nat) : List α :=
  (l.drop ((page - 1) * per)).take per

/-- Modelled from the spec: the Query Service's reply — the page's items
and the total page count. -/
structure QueryResult (α : Type) where
  items : List α
  total_pages : Nat
deriving DecidableEq

/-- Modelled from the spec: the missing Query Service on one result set —
filter by the search term, compute total pages, clamp the page, slice. -/
def query (keys : α → List String) (l : List α) (page per : Nat)
    (term : String) : QueryResult α :=
  let per := sanitizePer per
  let f := filterSet keys term l
  let tp := totalPages f.length per
  ⟨paginate f (clampPage page tp) per, tp⟩

/-- A JSON-like scalar value of a response item field. -/
inductive JVal where
  | str : String → JVal
  | num : Int → JVal
deriving DecidableEq

/-- Modelled from the spec: the JSON object serialised for one
chart/collections entry, with the field names the Dashboard reads. -/
def chartItemJson (e : Entry) : List (String × JVal) :=
  [("Account Name", JVal.str e.account_name),
   ("Card Number", JVal.str e.card_number),
   ("Total Amount", JVal.num e.total_amount)]

/-- Modelled from the spec: the JSON object serialised for one bad
transaction, with the field names the Dashboard reads. -/
def badItemJson (b : BadTransaction) : List (String × JVal) :=
  [("Account Name", JVal.str b.account_name),
   ("Card Number", JVal.str b.card_number),
   ("Transaction Amount", JVal.str b.transaction_amount),
   ("Transaction Type", JVal.str b.transaction_type),
   ("Description", JVal.str b.description),
   ("Target Card Number", JVal.str b.target_card_number)]

/-- A top-level value of a query response: an item list or a number. -/
inductive RespVal where
  | items : List (List (String × JVal)) → RespVal
  | num : Nat → RespVal
deriving DecidableEq

/-- Modelled from the spec: the response of the missing chart-of-accounts
query endpoint.  The envelope keys follow its surviving caller
fetchChartOfAccounts, which reads the fields chart_of_accounts and
total_pages of the response body. -/
def chartResponse (g : Generation) (page per : Nat) (term : String) :
    List (String × RespVal) :=
  let q := query entryKeys g.chart page per term
  [("chart_of_accounts", RespVal.items (q.items.map chartItemJson)),
   ("total_pages", RespVal.num q.total_pages)]

/-- Modelled from the spec: the response of the missing collections-accounts
query endpoint, with the envelope keys its caller fetchCollectionsAccounts
reads (collections_accounts, total_pages). -/
def collectionsResponse (g : Generation) (page per : Nat) (term : String) :
    List (String × RespVal) :=
  let q := query entryKeys g.collections page per term
  [("collections_accounts", RespVal.items (q.items.map chartItemJson)),
   ("total_pages", RespVal.num q.total_pages)]

/-- Modelled from the spec: the response of the missing bad-transactions
query endpoint, with the envelope keys its caller fetchBadTransactions
reads (bad_transactions, total_pages). -/
def badResponse (g : Generation) (page per : Nat) (term : String) :
    List (String × RespVal) :=
  let q := query badKeys g.bad page per term
  [("bad_transactions", RespVal.items (q.items.map badItemJson)),
   ("total_pages", RespVal.num q.total_pages)]

/-- What a route render produces: a redirect or a rendered element. -/
inductive Rendered where
  | navigate : String → Rendered
  | element : String → Rendered
deriving DecidableEq

/-- The PrivateRoute component of src/unnamed/part_001: when not
authenticated it returns a Navigate to /login, otherwise it renders the
provided element. -/
def PrivateRoute (isAuthenticated : Bool) (elt : String) : Rendered :=
  if !isAuthenticated then Rendered.navigate "/login" else Rendered.element elt

/-- The /dashboard route of src/frontend/src/App.js: a PrivateRoute whose
element is the Dashboard component. -/
def dashboardRoute (isAuthenticated : Bool) : Rendered :=
  PrivateRoute isAuthenticated "Dashboard"

/-- The two events AuthProvider (in src/unnamed/part_000) exposes on its
authentication state. -/
inductive AuthEvent where
  | login : AuthEvent
  | logout : AuthEvent
deriving DecidableEq

/-- AuthProvider's state transition: login sets isAuthenticated true,
logout sets it false. -/
def authStep (_ : Bool) : AuthEvent → Bool
  | AuthEvent.login => true
  | AuthEvent.logout => false

/-- AuthProvider's isAuthenticated after a sequence of events, starting
from its initial useState(false). -/
def isAuthenticatedAfter (es : List AuthEvent) : Bool :=
  es.foldl authStep false

/-- Modelled from the spec: a default collections predicate instance for
concrete runs — the policy itself is external configuration; theorems
quantify over the predicate. -/
def predDefault (e : Entry) : Bool :=
  e.total_amount < 0

/-- The header row of the spec's worked example CSV. -/
def exampleHeader : List String :=
  ["Account Name", "Card Number", "Transaction Amount", "Transaction Type",
   "Description", "Target Card Number"]

/-- The data rows of the spec's worked example CSV: two Alice rows and
Bob's row with an empty card number. -/
def exampleRows : List (List String) :=
  [["Alice", "1111222233334444", "100.00", "credit", "pay", ""],
   ["Alice", "1111222233334444", "-20.00", "debit", "fee", ""],
   ["Bob", "", "50.00", "credit", "pay", ""]]

/-- The spec's worked example CSV. -/
def exampleCsv : List (List String) :=
  exampleHeader :: exampleRows

/-- The column positions the example header resolves to. -/
def exampleCols : Cols :=
  ⟨0, 1, 2, 3, 4, some 5⟩

/-- The generation the worked example produces: one chart entry
Alice/1111222233334444/80.00 (8000 hundredths), no collections entries,
Bob's row bad with reason invalid card number format. -/
def exampleGeneration : Generation :=
  ⟨[⟨"Alice", "1111222233334444", 8000⟩], [],
   [⟨"Bob", "", "50.00", "credit", "pay", "", "invalid card number format"⟩]⟩

/-- The exact sum of the signed amounts of a transaction list. -/
def sumAmounts (ts : List Transaction) : Int :=
  (ts.map Transaction.transaction_amount).sum

/-- The exact sum of total_amount over a list of chart entries. -/
def sumTotals (es : List Entry) : Int :=
  (es.map Entry.total_amount).sum

/-- The Valid Transactions an upload extracts from the raw records (empty
when the upload fails structurally). -/
def validTxs (records : List (List String)) : List Transaction :=
  match records with
  | [] => []
  | header :: rows =>
    match headerCols header with
    | some c => (processRows c rows).1
    | none => []

theorem sumTotals_addTx (acc : List Entry) (t : Transaction) :
    sumTotals (addTx acc t) = sumTotals acc + t.transaction_amount := by
  induction acc with
  | nil => simp [addTx, sumTotals]
  | cons e rest ih =>
    by_cases h : (e.account_name == t.account_name && e.card_number == t.card_number) = true
    · simp [addTx, h, sumTotals]
      ring
    · simp only [addTx, h, Bool.false_eq_true, if_false, sumTotals, List.map_cons,
        List.sum_cons] at ih ⊢
      omega

theorem sumTotals_foldl (ts : List Transaction) (acc : List Entry) :
    sumTotals (ts.foldl addTx acc) = sumTotals acc + sumAmounts ts := by
  induction ts generalizing acc with
  | nil => simp [sumAmounts]
  | cons t ts ih =>
    simp only [List.foldl_cons, ih, sumTotals_addTx, sumAmounts, List.map_cons,
      List.sum_cons]
    ring

/-- C1: for every valid CSV input processed by one upload, the sum of
total_amount over all Chart-of-Accounts entries equals the exact sum of the
signed amounts of all Valid Transactions of that upload — exact fixed-point
arithmetic, no rounding drift. -/
theorem chart_total_matches_valid_sum (pred : Entry → Bool)
    (records : List (List String)) (g : Generation)
    (h : processCsv pred records = Except.ok g) :
    sumTotals g.chart = sumAmounts (validTxs records) := by
  match records with
  | [] => simp [processCsv] at h
  | header :: rows =>
    simp only [processCsv] at h
    cases hc : headerCols header with
    | none => rw [hc] at h; exact absurd h (by simp)
    | some c =>
      rw [hc] at h
      cases h
      simp only [validTxs, hc, buildGeneration, buildChart]
      rw [sumTotals_foldl]
      simp [sumTotals]

/-- Witness for C1 at the spec's worked example CSV. -/
theorem chart_total_matches_valid_sum_witness :
    processCsv predDefault exampleCsv = Except.ok exampleGeneration ∧
    sumTotals exampleGeneration.chart = sumAmounts (validTxs exampleCsv) :=
  ⟨by decide,
   chart_total_matches_valid_sum predDefault exampleCsv exampleGeneration (by decide)⟩

/-- C2: the Validator is a pure function of the candidate applying the five
rules in the fixed order — the reported reason is that of the first failing
rule: empty account name first; then card-number format with reason
"invalid card number format"; then zero amount with reason "zero amount
transaction"; then the transfer target with reason "missing/invalid target
card for transfer"; then the recognized transaction types with reason
"unrecognized transaction type"; Valid when every rule passes. -/
theorem validator_rule_order (t : Transaction) :
    (t.account_name.isEmpty = true →
      validate t = Verdict.bad "missing account name") ∧
    (t.account_name.isEmpty = false → validCardFormat t.card_number = false →
      validate t = Verdict.bad "invalid card number format") ∧
    (t.account_name.isEmpty = false → validCardFormat t.card_number = true →
      t.transaction_amount = 0 →
      validate t = Verdict.bad "zero amount transaction") ∧
    (t.account_name.isEmpty = false → validCardFormat t.card_number = true →
      t.transaction_amount ≠ 0 → t.transaction_type = "transfer" →
      validCardFormat t.target_card_number = false →
      validate t = Verdict.bad "missing/invalid target card for transfer") ∧
    (t.account_name.isEmpty = false → validCardFormat t.card_number = true →
      t.transaction_amount ≠ 0 →
      (t.transaction_type = "transfer" → validCardFormat t.target_card_number = true) →
      recognizedTypes.contains t.transaction_type = false →
      validate t = Verdict.bad "unrecognized transaction type") ∧
    (t.account_name.isEmpty = false → validCardFormat t.card_number = true →
      t.transaction_amount ≠ 0 →
      (t.transaction_type = "transfer" → validCardFormat t.target_card_number = true) →
      recognizedTypes.contains t.transaction_type = true →
      validate t = Verdict.valid) := by
  refine ⟨?_, ?_, ?_, ?_, ?_, ?_⟩
  · intro h1
    simp [validate, h1]
  · intro h1 h2
    simp [validate, h1, h2]
  · intro h1 h2 h3
    simp [validate, h1, h2, h3]
  · intro h1 h2 h3 h4 h5
    simp [validate, h1, h2, h3, h4, h5]
  · intro h1 h2 h3 h4 h5
    have h5m : t.transaction_type ∉ recognizedTypes := by simpa using h5
    by_cases ht : t.transaction_type = "transfer"
    · exfalso
      rw [ht] at h5m
      exact h5m (by decide)
    · simp [validate, h1, h2, h3, ht, h5m]
  · intro h1 h2 h3 h4 h5
    have h5m : t.transaction_type ∈ recognizedTypes := by simpa using h5
    by_cases ht : t.transaction_type = "transfer"
    · simp only [validate, h1, h2, h3, ht, h4 ht]
      simp [recognizedTypes]
    · simp [validate, h1, h2, h3, ht, h5m]

/-- Witness for C2: Bob's parsed row — empty card number, otherwise valid
fields — is Bad with reason "invalid card number format" even though its
other fields pass their own rules. -/
theorem validator_rule_order_witness :
    parseRow exampleCols ["Bob", "", "50.00", "credit", "pay", ""] =
      Sum.inl ⟨"Bob", "", 5000, "credit", "pay", ""⟩ ∧
    ("Bob" : String).isEmpty = false ∧
    validCardFormat "" = false ∧
    validate ⟨"Bob", "", 5000, "credit", "pay", ""⟩ =
      Verdict.bad "invalid card number format" :=
  ⟨by decide, by decide, by decide,
   (validator_rule_order ⟨"Bob", "", 5000, "credit", "pay", ""⟩).2.1
     (by decide) (by decide)⟩

/-- C3: a structurally failing upload (empty file or header missing a
required column) leaves the Result Store's prior generation completely
unchanged and hands the caller the descriptive error — all-or-nothing,
never a half-applied replace. -/
theorem structural_error_leaves_store_unchanged (pred : Entry → Bool)
    (store : Generation) (records : List (List String)) (e : String)
    (h : processCsv pred records = Except.error e) :
    applyUpload pred store records = (store, some e) := by
  simp [applyUpload, h]

/-- Witness for C3: an empty upload against the example generation is
rejected with the descriptive error and the generation is untouched. -/
theorem structural_error_leaves_store_unchanged_witness :
    processCsv predDefault ([] : List (List String)) = Except.error "empty file" ∧
    applyUpload predDefault exampleGeneration [] = (exampleGeneration, some "empty file") :=
  ⟨by decide,
   structural_error_leaves_store_unchanged predDefault exampleGeneration []
     "empty file" (by decide)⟩

/-- C4: once the header resolves, the upload always completes — a per-row
parse or validation failure never aborts it; every row lands in exactly one
of the two sets, and a failing row is captured as a BadTransaction in the
bad set while processing continues with the remaining rows. -/
theorem row_failures_never_abort (pred : Entry → Bool) (header : List String)
    (rows : List (List String)) (c : Cols) (h : headerCols header = some c) :
    processCsv pred (header :: rows) = Except.ok (buildGeneration pred c rows) ∧
    (processRows c rows).1.length + (processRows c rows).2.length = rows.length ∧
    (∀ r rs b, rowOutcome c r = Sum.inr b →
      processRows c (r :: rs) = ((processRows c rs).1, b :: (processRows c rs).2)) := by
  refine ⟨by simp [processCsv, h], ?_, ?_⟩
  · induction rows with
    | nil => simp [processRows]
    | cons r rs ih =>
      cases hro : rowOutcome c r <;> simp [processRows, hro] <;> omega
  · intro r rs b hb
    simp [processRows, hb]

/-- Witness for C4 at the example upload, whose Bob row fails validation
while the upload completes. -/
theorem row_failures_never_abort_witness :
    headerCols exampleHeader = some exampleCols ∧
    processCsv predDefault (exampleHeader :: exampleRows) =
      Except.ok (buildGeneration predDefault exampleCols exampleRows) ∧
    (processRows exampleCols exampleRows).1.length +
      (processRows exampleCols exampleRows).2.length = exampleRows.length :=
  ⟨by decide,
   (row_failures_never_abort predDefault exampleHeader exampleRows exampleCols
     (by decide)).1,
   (row_failures_never_abort predDefault exampleHeader exampleRows exampleCols
     (by decide)).2.1⟩

theorem sanitizePer_pos (per : Nat) : 1 ≤ sanitizePer per := by
  unfold sanitizePer
  split <;> omega

theorem sanitizePer_eq (per : Nat) (h : 1 ≤ per) : sanitizePer per = per := by
  unfold sanitizePer
  rw [if_neg (by omega)]

theorem join_range_paginate {α : Type} (per : Nat) (l : List α) (k : Nat) :
    ((List.range k).map (fun i => (l.drop (i * per)).take per)).flatten =
      l.take (k * per) := by
  induction k with
  | zero => simp
  | succ k ih =>
    rw [List.range_succ, List.map_append, List.flatten_append, ih]
    simp [Nat.succ_mul, List.take_add]

theorem ceil_bounds (count per : Nat) (h : 1 ≤ per) :
    count ≤ per * ((count + per - 1) / per) ∧
      per * ((count + per - 1) / per) < count + per := by
  have hd := Nat.div_add_mod (count + per - 1) per
  have hm : (count + per - 1) % per < per := Nat.mod_lt _ (by omega)
  generalize hP : per * ((count + per - 1) / per) = P at hd ⊢
  omega

theorem totalPages_eq_of_pos (count per : Nat) (hper : 1 ≤ per) (hc : 1 ≤ count) :
    totalPages count per = (count + per - 1) / per := by
  unfold totalPages
  have h1 : 1 ≤ (count + per - 1) / per := by
    rw [Nat.le_div_iff_mul_le (by omega)]
    omega
  omega

theorem length_le_totalPages_mul (count per : Nat) (h : 1 ≤ per) :
    count ≤ totalPages count per * per := by
  rcases Nat.eq_zero_or_pos count with hc | hc
  · subst hc
    omega
  · rw [totalPages_eq_of_pos count per h hc, Nat.mul_comm]
    exact (ceil_bounds count per h).1

theorem totalPages_mul_lt (count per : Nat) (hper : 1 ≤ per) (hc : 1 ≤ count) :
    totalPages count per * per < count + per := by
  rw [totalPages_eq_of_pos count per hper hc, Nat.mul_comm]
  exact (ceil_bounds count per hper).2

theorem pages_cover {α : Type} (l : List α) (per : Nat) (h : 1 ≤ per) :
    ((List.range (totalPages l.length per)).map
      (fun i => paginate l (i + 1) per)).flatten = l := by
  have e : (fun i => paginate l (i + 1) per) =
      (fun i => (l.drop (i * per)).take per) := by
    funext i
    simp [paginate]
  rw [e, join_range_paginate]
  exact List.take_of_length_le (length_le_totalPages_mul l.length per h)

/-- C5: with a positive itemsPerPage, total_pages is the ceiling of the
filtered size divided by the page size with a minimum of one (an empty set
has one page), and concatenating the items of pages 1..total_pages in
order reproduces the whole filtered set — no duplicates, no omissions. -/
theorem pagination_total_pages_and_coverage (l : List Entry) (per : Nat)
    (term : String) (h : 1 ≤ per) :
    ((filterSet entryKeys term l).length = 0 →
      (query entryKeys l 1 per term).total_pages = 1) ∧
    (1 ≤ (filterSet entryKeys term l).length →
      (filterSet entryKeys term l).length ≤
        (query entryKeys l 1 per term).total_pages * per ∧
      (query entryKeys l 1 per term).total_pages * per <
        (filterSet entryKeys term l).length + per) ∧
    (((List.range (query entryKeys l 1 per term).total_pages).map
        (fun i => (query entryKeys l (i + 1) per term).items)).flatten =
      filterSet entryKeys term l) := by
  have hs := sanitizePer_eq per h
  have htp : (query entryKeys l 1 per term).total_pages =
      totalPages (filterSet entryKeys term l).length per := by
    simp [query, hs]
  refine ⟨?_, ?_, ?_⟩
  · intro h0
    rw [htp, h0]
    unfold totalPages
    have : (0 + per - 1) / per = 0 := Nat.div_eq_of_lt (by omega)
    omega
  · intro h1
    rw [htp]
    exact ⟨length_le_totalPages_mul _ per h,
      totalPages_mul_lt _ per h h1⟩
  · rw [htp]
    have hitems : ∀ i, i < totalPages (filterSet entryKeys term l).length per →
        (query entryKeys l (i + 1) per term).items =
          paginate (filterSet entryKeys term l) (i + 1) per := by
      intro i hi
      have hcl : clampPage (i + 1)
          (totalPages (filterSet entryKeys term l).length per) = i + 1 := by
        unfold clampPage
        rw [if_neg (by omega), if_neg (by omega)]
      simp [query, hs, hcl]
    rw [List.map_congr_left (fun i hi =>
      hitems i (List.mem_range.mp hi))]
    exact pages_cover (filterSet entryKeys term l) per h

/-- Witness for C5 at the spec's example: a 35-entry set queried with
itemsPerPage 20 — page 2 returns 15 items and total_pages is 2. -/
theorem pagination_total_pages_and_coverage_witness :
    (1 : Nat) ≤ 20 ∧
    (((List.range (query entryKeys (List.replicate 35 ⟨"a", "1", 100⟩) 1 20 "").total_pages).map
        (fun i => (query entryKeys (List.replicate 35 (⟨"a", "1", 100⟩ : Entry)) (i + 1) 20 "").items)).flatten =
      filterSet entryKeys "" (List.replicate 35 ⟨"a", "1", 100⟩)) ∧
    (query entryKeys (List.replicate 35 (⟨"a", "1", 100⟩ : Entry)) 2 20 "").items.length = 15 ∧
    (query entryKeys (List.replicate 35 (⟨"a", "1", 100⟩ : Entry)) 2 20 "").total_pages = 2 :=
  ⟨by decide,
   (pagination_total_pages_and_coverage
     (List.replicate 35 ⟨"a", "1", 100⟩) 20 "" (by decide)).2.2,
   by decide, by decide⟩

theorem filterSet_idem {α : Type} (keys : α → List String) (term : String)
    (l : List α) :
    filterSet keys term (filterSet keys term l) = filterSet keys term l := by
  by_cases ht : term.isEmpty
  · simp [filterSet, ht]
  · simp only [filterSet, ht, Bool.false_eq_true, if_false, if_neg]
    rw [List.filter_filter]
    simp

/-- C6: the empty search term keeps everything; a non-empty term keeps
exactly the entries whose account name or card number contains it as a
case-insensitive substring; the filter is idempotent, and querying the
already-filtered set with the same term gives exactly the query of the raw
set — filtering commutes with pagination. -/
theorem search_filter_idempotent_commutes (term : String) (l : List Entry)
    (page per : Nat) :
    (filterSet entryKeys "" l = l) ∧
    (∀ e : Entry, e ∈ filterSet entryKeys term l ↔
      e ∈ l ∧ (term.isEmpty = true ∨ strContainsCI e.account_name term = true ∨
               strContainsCI e.card_number term = true)) ∧
    (filterSet entryKeys term (filterSet entryKeys term l) =
      filterSet entryKeys term l) ∧
    (query entryKeys (filterSet entryKeys term l) page per term =
      query entryKeys l page per term) := by
  have hemp : ("" : String).isEmpty = true := by decide
  refine ⟨by simp [filterSet, hemp], ?_, filterSet_idem entryKeys term l, ?_⟩
  · intro e
    by_cases ht : term.isEmpty
    · simp [filterSet, ht]
    · simp [filterSet, ht, List.mem_filter, matchesTerm, entryKeys]
  · simp only [query]
    rw [filterSet_idem entryKeys term l]

/-- C7: processing is deterministic — resetting and uploading the same raw
CSV records again yields identical chart, collections and bad-transactions
sets, whatever either prior generation was. -/
theorem upload_after_reset_deterministic (pred : Entry → Bool)
    (records : List (List String)) (s1 s2 : Generation) :
    applyUpload pred (reset s1) records = applyUpload pred (reset s2) records :=
  rfl

/-- C8 counterexample: the chart-of-accounts query response, whose envelope
keys are the ones its caller fetchChartOfAccounts reads, carries the item
list under the key chart_of_accounts — there is no field named items. -/
theorem query_response_items_key_counterexample :
    ((chartResponse emptyGeneration 1 20 "").map Prod.fst =
      ["chart_of_accounts", "total_pages"]) ∧
    (((chartResponse emptyGeneration 1 20 "").map Prod.fst).contains "items"
      = false) := by
  decide

/-- C8 amended: each query response is the structure with the set's own key
(chart_of_accounts, collections_accounts or bad_transactions) holding the
item list plus total_pages, each chart or collections item carrying exactly
Account Name, Card Number, Total Amount, and each bad-transactions item
carrying exactly Account Name, Card Number, Transaction Amount, Transaction
Type, Description, Target Card Number. -/
theorem query_response_envelope_and_fields (g : Generation) (page per : Nat)
    (term : String) :
    ((chartResponse g page per term).map Prod.fst =
      ["chart_of_accounts", "total_pages"]) ∧
    ((collectionsResponse g page per term).map Prod.fst =
      ["collections_accounts", "total_pages"]) ∧
    ((badResponse g page per term).map Prod.fst =
      ["bad_transactions", "total_pages"]) ∧
    (∀ e : Entry, (chartItemJson e).map Prod.fst =
      ["Account Name", "Card Number", "Total Amount"]) ∧
    (∀ b : BadTransaction, (badItemJson b).map Prod.fst =
      ["Account Name", "Card Number", "Transaction Amount", "Transaction Type",
       "Description", "Target Card Number"]) :=
  ⟨rfl, rfl, rfl, fun _ => rfl, fun _ => rfl⟩

theorem query_empty_set {α : Type} (keys : α → List String) (page per : Nat)
    (term : String) :
    query keys ([] : List α) page per term = ⟨[], 1⟩ := by
  have h := sanitizePer_pos per
  have hf : filterSet keys term ([] : List α) = [] := by
    simp [filterSet]
  have htp : totalPages 0 (sanitizePer per) = 1 := by
    unfold totalPages
    have : (0 + sanitizePer per - 1) / sanitizePer per = 0 :=
      Nat.div_eq_of_lt (by omega)
    omega
  simp [query, hf, htp, paginate]

/-- C9: reset clears all three result sets to empty, and any query issued
on the reset store — any page, any page size, any search term — returns
empty items and total_pages one, for each of the three named sets. -/
theorem reset_then_query_empty (s : Generation) (page per : Nat)
    (term : String) :
    reset s = emptyGeneration ∧
    query entryKeys (reset s).chart page per term = ⟨[], 1⟩ ∧
    query entryKeys (reset s).collections page per term = ⟨[], 1⟩ ∧
    query badKeys (reset s).bad page per term = ⟨[], 1⟩ :=
  ⟨rfl, query_empty_set entryKeys page per term,
   query_empty_set entryKeys page per term,
   query_empty_set badKeys page per term⟩

/-- C10: the dashboard route is gated on authentication — PrivateRoute
redirects to /login whenever isAuthenticated is false and renders the given
element only when it is true; the /dashboard route renders Dashboard under
it; AuthProvider's state starts false, any event sequence ending in login
leaves it true and any ending in logout leaves it false. -/
theorem dashboard_route_gated_on_auth :
    (∀ elt : String, PrivateRoute false elt = Rendered.navigate "/login") ∧
    (∀ elt : String, PrivateRoute true elt = Rendered.element elt) ∧
    (dashboardRoute false = Rendered.navigate "/login") ∧
    (dashboardRoute true = Rendered.element "Dashboard") ∧
    (isAuthenticatedAfter [] = false) ∧
    (∀ es : List AuthEvent, isAuthenticatedAfter (es ++ [AuthEvent.login]) = true) ∧
    (∀ es : List AuthEvent, isAuthenticatedAfter (es ++ [AuthEvent.logout]) = false) := by
  refine ⟨fun _ => rfl, fun _ => rfl, rfl, rfl, rfl, ?_, ?_⟩ <;>
    intro es <;>
    simp [isAuthenticatedAfter, List.foldl_append, authStep]

end SignaPay
